import Mathlib

/-!
Shallow embedding of `src/onion/https.c` (the HTTPS listen-point adapter of the
onion HTTP server library, built on GnuTLS).

The C file orchestrates an external TLS engine; the engine's observable
behaviour (results of `gnutls_handshake`, the `gnutls_error_is_fatal`
classification, `gnutls_strerror` descriptions, record-receive results) is an
oracle parameter `TlsEngine` / explicit result arguments.  Each embedded
function returns, next to its C return value, the list of externally visible
resource and logging events it performs, in program order.  `ONION_DEBUG`
tracing is not modelled; `ONION_ERROR` logging is, because the spec's claims
mention it.
-/

/-- Oracle for the external TLS engine as observed by `https.c`:
the result of the k-th `gnutls_handshake` invocation on a session, the
engine's `gnutls_error_is_fatal` classification, and `gnutls_strerror`. -/
structure TlsEngine where
  handshakeResults : Nat → Int
  errorIsFatal : Int → Bool
  strerror : Int → String

/-- The spec's handshake state machine, read off one negotiation step:
a negative result classified non-fatal keeps handshaking, a non-negative
result establishes the session, a negative fatal result fails it. -/
inductive HState where
  | handshaking
  | established
  | failed
deriving DecidableEq, Repr

/-- One step of the handshake state machine at the k-th `gnutls_handshake`
invocation. -/
def hsStep (eng : TlsEngine) (k : Nat) : HState :=
  let ret := eng.handshakeResults k
  if ret < 0 then
    if eng.errorIsFatal ret then HState.failed else HState.handshaking
  else HState.established

/-- The handshake loop of `onion_https_accept_connection`
(`do { ret = gnutls_handshake(session); } while (ret < 0 && gnutls_error_is_fatal(ret) == 0);`),
with explicit fuel since the C loop need not terminate for an adversarial
engine.  `k` counts the invocations already made; the result is the final
`ret` together with the total number of invocations. -/
def handshakeLoop (eng : TlsEngine) : Nat → Nat → Option (Int × Nat)
  | 0, _ => none
  | fuel+1, k =>
    let ret := eng.handshakeResults k
    if ret < 0 ∧ eng.errorIsFatal ret = false then
      handshakeLoop eng fuel (k+1)
    else
      some (ret, k+1)

/-- Externally visible events of `onion_https_accept_connection`, in the
order the C code performs them. -/
inductive AcceptEvent where
  | connectionNewFromSocket
  | gnutlsInit
  | prioritySet
  | credentialsSet
  | certificateServerSetRequest
  | enableCompatibilityMode
  | transportSetPtr
  | handshake (ret : Int)
  | logError (msg : String)
  | sessionDeinit
  | connectionFree
  | requestNew
deriving DecidableEq, Repr

/-- The fixed event prefix of `onion_https_accept_connection` before the
handshake loop: accept the raw socket connection, then
`gnutls_init`, `gnutls_priority_set`, `gnutls_credentials_set`,
`gnutls_certificate_server_set_request`,
`gnutls_session_enable_compatibility_mode`, `gnutls_transport_set_ptr`. -/
def handshakePre : List AcceptEvent :=
  [AcceptEvent.connectionNewFromSocket, AcceptEvent.gnutlsInit,
   AcceptEvent.prioritySet, AcceptEvent.credentialsSet,
   AcceptEvent.certificateServerSetRequest, AcceptEvent.enableCompatibilityMode,
   AcceptEvent.transportSetPtr]

/-- The `gnutls_handshake` invocation events of the first `n` loop
iterations. -/
def handshakeTrace (eng : TlsEngine) (n : Nat) : List AcceptEvent :=
  (List.range n).map (fun i => AcceptEvent.handshake (eng.handshakeResults i))

/-- `onion_https_accept_connection`: accept a raw connection, set up a server
session, run the handshake loop; on a fatal result (`ret < 0` after the loop)
log `gnutls_strerror`, free the raw connection and return NULL; on success
build the request object, store `{req, session}` as the connection's
`user_data` and return the connection.  The boolean is `true` exactly when a
connection is handed to the caller; `none` means the fuel ran out while the C
loop was still running. -/
def onion_https_accept_connection (eng : TlsEngine) (fuel : Nat) :
    Option (List AcceptEvent × Bool) :=
  match handshakeLoop eng fuel 0 with
  | none => none
  | some (ret, n) =>
    if ret < 0 then
      some (handshakePre ++ handshakeTrace eng n ++
        [AcceptEvent.logError ("Handshake has failed (" ++ eng.strerror ret ++ ")"),
         AcceptEvent.connectionFree], false)
    else
      some (handshakePre ++ handshakeTrace eng n ++ [AcceptEvent.requestNew], true)

/-- Externally visible events of `onion_https_close`, in program order. -/
inductive CloseEvent where
  | gnutlsBye (ret : Int)
  | sessionDeinit
  | requestFree
  | freeUserData
  | closeSocket
deriving DecidableEq, Repr

/-- The per-connection state `onion_https_connection` stored in
`con->user_data`; the code guards `gnutls_deinit` by `if (data->session)`,
so the session pointer is kept as an `Option`. -/
structure HttpsConnState where
  session : Option Nat
deriving DecidableEq, Repr

/-- The slice of `onion_connection` that `onion_https_close` reads and
writes: the opaque `user_data` pointer and whether the socket is open. -/
structure Conn where
  user_data : Option HttpsConnState
  socketOpen : Bool
deriving DecidableEq, Repr

/-- `onion_https_close`: if `con->user_data` is set (the C code checks the
same pointer twice, as `data` and as `con->user_data`), call `gnutls_bye`
(its result `byeRet` is ignored), `gnutls_deinit` the session when non-null,
free the request, free the user data and null the pointer; in every case
finally call `onion_connection_close_socket`. -/
def onion_https_close (byeRet : Int) (con : Conn) : List CloseEvent × Conn :=
  match con.user_data with
  | some data =>
    let deinitEvs := match data.session with
      | some _ => [CloseEvent.sessionDeinit]
      | none => []
    (CloseEvent.gnutlsBye byeRet :: deinitEvs ++
       [CloseEvent.requestFree, CloseEvent.freeUserData, CloseEvent.closeSocket],
     { user_data := none, socketOpen := false })
  | none => ([CloseEvent.closeSocket], { con with socketOpen := false })

/-- Logging events of `onion_https_read`. -/
inductive ReadEvent where
  | logError (msg : String)
deriving DecidableEq, Repr

/-- `onion_https_read`: delegate to `gnutls_record_recv` (whose result is the
argument `recvRet`); when the result is negative, log the engine description;
in every case return the engine result unchanged to the caller. -/
def onion_https_read (strerr : Int → String) (recvRet : Int) :
    Int × List ReadEvent :=
  if recvRet < 0 then
    (recvRet,
     [ReadEvent.logError ("Reading data has failed (" ++ strerr recvRet ++ ")")])
  else
    (recvRet, [])

/-- Modelled from the spec: `https.h` (not part of the observed unit) declares
the certificate-mode selectors; the spec gives four modes, selected by the low
byte of the type argument. -/
def O_SSL_CERTIFICATE_CRL : Nat := 1

/-- Modelled from the spec: second certificate mode, certificate plus key. -/
def O_SSL_CERTIFICATE_KEY : Nat := 2

/-- Modelled from the spec: third certificate mode, CA trust file. -/
def O_SSL_CERTIFICATE_TRUST : Nat := 3

/-- Modelled from the spec: fourth certificate mode, PKCS12 file. -/
def O_SSL_CERTIFICATE_PKCS12 : Nat := 4

/-- Modelled from the spec: the format bit selecting DER over PEM, a flag bit
independent of the low-byte mode. -/
def O_SSL_DER : Nat := 0x0100

/-- Modelled from the spec: the shared-use flag; when set on the server,
`gnutls_global_deinit` is skipped at teardown because other TlsContexts
remain active. -/
def O_SSL_NO_DEINIT : Nat := 0x0200

/-- Externally visible events of `onion_https_free`, in program order. -/
inductive FreeEvent where
  | freeCredentials
  | dhParamsDeinit
  | priorityDeinit
  | globalDeinit
  | freeHttps
  | shutdownFd
  | closeFd
deriving DecidableEq, Repr

/-- Result of running `onion_https_free`: the events performed before
either finishing or hitting undefined behaviour.  `nullDeref = true` records
that the function dereferenced the null `op->server` pointer, after which no
further event of the function is performed. -/
structure FreeResult where
  trace : List FreeEvent
  nullDeref : Bool
deriving DecidableEq, Repr

/-- `onion_https_free`: free the credentials, DH parameters and priority
cache; then read `op->server->flags & O_SSL_NO_DEINIT` — when `op->server`
is NULL this dereferences a null pointer — and call `gnutls_global_deinit`
exactly when the flag is clear; finally free the `onion_https` struct and
shut down and close the listen socket.  `server` is `op->server`'s flags
when the back-pointer is set, `none` when it is NULL. -/
def onion_https_free (server : Option Nat) : FreeResult :=
  let pre := [FreeEvent.freeCredentials, FreeEvent.dhParamsDeinit,
    FreeEvent.priorityDeinit]
  match server with
  | none => { trace := pre, nullDeref := true }
  | some flags =>
    let deinit := if Nat.land flags O_SSL_NO_DEINIT = 0
      then [FreeEvent.globalDeinit] else []
    { trace := pre ++ deinit ++
        [FreeEvent.freeHttps, FreeEvent.shutdownFd, FreeEvent.closeFd],
      nullDeref := false }

/-- Modelled from the spec: `onion_listen_point_free` lives in
`listen_point.c`, outside the observed unit.  Per the spec, on a failed
configuration "the caller must release all state already allocated for this
listen point": the release goes through the protocol-specific `free` hook of
the listen point, and `onion_https_new` installs `onion_https_free` as that
hook.  `server` is the listen point's server back-pointer state at the time
of the call. -/
def onion_listen_point_free (server : Option Nat) : FreeResult :=
  onion_https_free server

/-- Externally visible events of `onion_https_new`, in program order;
`freeEv` wraps the events of the nested cleanup via
`onion_listen_point_free`. -/
inductive NewEvent where
  | globalInit
  | allocateCredentials
  | dhParamsInit
  | dhParamsGenerate (bits : Nat)
  | setDhParams
  | priorityInit (policy : String)
  | setCertificate (mode : Nat) (der : Bool) (result : Int)
  | logError (msg : String)
  | freeEv (e : FreeEvent)
deriving DecidableEq, Repr

/-- Outcome of `onion_https_new`: a listen point handed to the caller, NULL
returned after cleanup, or a crash (null `op->server` dereference) inside the
cleanup. -/
inductive NewOutcome where
  | ok
  | failed
  | nullDeref
deriving DecidableEq, Repr

/-- `onion_https_new`: build a listen point (its `server` back-pointer still
NULL, since it has not been added to any server), run `gnutls_global_init`,
allocate credentials, generate 1024-bit DH parameters, attach them, compile
the priority string; then switch on the low byte of `ty` — a known mode
performs the matching `gnutls_certificate_set_x509_*` call whose engine
result is the oracle argument `certResult`, an unknown mode sets `r = -1`
and logs; if `r < 0`, log the engine description and free the listen point
via `onion_listen_point_free` (with `op->server` still NULL), then return
NULL. -/
def onion_https_new (ty : Nat) (certResult : Int) (strerr : Int → String) :
    List NewEvent × NewOutcome :=
  let pre := [NewEvent.globalInit, NewEvent.allocateCredentials,
    NewEvent.dhParamsInit, NewEvent.dhParamsGenerate 1024,
    NewEvent.setDhParams,
    NewEvent.priorityInit "PERFORMANCE:%SAFE_RENEGOTIATION:-VERS-TLS1.0"]
  let mode := Nat.land ty 0x0FF
  let der : Bool := Nat.land ty O_SSL_DER != 0
  let step : List NewEvent × Int :=
    if mode = O_SSL_CERTIFICATE_CRL ∨ mode = O_SSL_CERTIFICATE_KEY ∨
       mode = O_SSL_CERTIFICATE_TRUST ∨ mode = O_SSL_CERTIFICATE_PKCS12 then
      ([NewEvent.setCertificate mode der certResult], certResult)
    else
      ([NewEvent.logError ("Set unknown type of certificate: " ++ toString ty)],
       -1)
  if step.2 < 0 then
    let cleanup := onion_listen_point_free none
    (pre ++ step.1 ++
       [NewEvent.logError ("Error setting the certificate (" ++
          strerr step.2 ++ ")")] ++
       cleanup.trace.map NewEvent.freeEv,
     if cleanup.nullDeref then NewOutcome.nullDeref else NewOutcome.failed)
  else
    (pre ++ step.1, NewOutcome.ok)

/-- The DH parameter strengths generated along a trace of
`onion_https_new`. -/
def dhBits : NewEvent → Option Nat
  | NewEvent.dhParamsGenerate b => some b
  | _ => none

/-- All DH parameter strengths generated in a trace. -/
def dhBitsOf (tr : List NewEvent) : List Nat := tr.filterMap dhBits

/-! ### Concrete engines and connections used by witnesses and
counterexamples -/

/-- An engine whose first handshake step fails fatally with code `-10`. -/
def engC1 : TlsEngine :=
  { handshakeResults := fun _ => -10
    errorIsFatal := fun _ => true
    strerror := fun _ => "engine error" }

/-- An engine that always reports a non-fatal incomplete handshake. -/
def engC2a : TlsEngine :=
  { handshakeResults := fun _ => -28
    errorIsFatal := fun _ => false
    strerror := fun _ => "again" }

/-- An engine whose handshake succeeds immediately. -/
def engC2b : TlsEngine :=
  { handshakeResults := fun _ => 0
    errorIsFatal := fun _ => true
    strerror := fun _ => "ok" }

/-- An engine whose handshake fails fatally with code `-12`. -/
def engC2c : TlsEngine :=
  { handshakeResults := fun _ => -12
    errorIsFatal := fun _ => true
    strerror := fun _ => "fatal alert" }

/-- An engine for the session-leak analysis: fatal failure code `-15` at the
first step. -/
def engC9 : TlsEngine :=
  { handshakeResults := fun _ => -15
    errorIsFatal := fun _ => true
    strerror := fun _ => "handshake alert" }

/-- The trace of the failed accept driven by `engC9`. -/
def trC9 : List AcceptEvent :=
  handshakePre ++ [AcceptEvent.handshake (-15),
    AcceptEvent.logError ("Handshake has failed (" ++ engC9.strerror (-15) ++ ")"),
    AcceptEvent.connectionFree]

/-- A live connection: `user_data` set and its session non-null. -/
def conLive : Conn :=
  { user_data := some { session := some 7 }, socketOpen := true }

/-- A concrete engine-description function for the read and construction
analyses. -/
def strerrC : Int → String := fun r => "gnutls error " ++ toString r

/-! ### Claim theorems -/

/-- C1: on every accepted raw connection whose handshake loop ends with a
fatal error (`ret < 0` after the loop), `onion_https_accept_connection` logs
the engine's error description for that result, frees the raw connection as
its last action, and returns no connection to the caller, so the raw
connection is never leaked. -/
theorem accept_fatal_frees_connection (eng : TlsEngine) (fuel n : Nat)
    (ret : Int) (hl : handshakeLoop eng fuel 0 = some (ret, n))
    (hfatal : ret < 0) :
    onion_https_accept_connection eng fuel =
      some (handshakePre ++ handshakeTrace eng n ++
        [AcceptEvent.logError ("Handshake has failed (" ++ eng.strerror ret ++ ")"),
         AcceptEvent.connectionFree], false) := by
  simp [onion_https_accept_connection, hl, hfatal]

/-- Witness for C1 at the concrete engine `engC1`. -/
theorem accept_fatal_frees_connection_witness :
    onion_https_accept_connection engC1 1 =
      some (handshakePre ++ handshakeTrace engC1 1 ++
        [AcceptEvent.logError ("Handshake has failed (" ++ engC1.strerror (-10) ++ ")"),
         AcceptEvent.connectionFree], false) :=
  accept_fatal_frees_connection engC1 1 1 (-10) (by decide) (by decide)

/-- C2: the handshake loop re-invokes `gnutls_handshake` exactly when the
step is a non-fatal incomplete (negative) result, i.e. when the state machine
stays in `handshaking`; it stops with the step's result on `established`
(non-negative result) and on `failed` (negative result the engine classifies
as fatal), and these are the only transitions out of `handshaking`. -/
theorem handshake_loop_matches_state_machine (eng : TlsEngine)
    (fuel k : Nat) :
    (hsStep eng k = HState.handshaking →
      handshakeLoop eng (fuel+1) k = handshakeLoop eng fuel (k+1)) ∧
    (hsStep eng k = HState.established →
      handshakeLoop eng (fuel+1) k = some (eng.handshakeResults k, k+1) ∧
      0 ≤ eng.handshakeResults k) ∧
    (hsStep eng k = HState.failed →
      handshakeLoop eng (fuel+1) k = some (eng.handshakeResults k, k+1) ∧
      eng.handshakeResults k < 0 ∧
      eng.errorIsFatal (eng.handshakeResults k) = true) := by
  by_cases h1 : eng.handshakeResults k < 0
  · by_cases h2 : eng.errorIsFatal (eng.handshakeResults k)
    · simp [hsStep, handshakeLoop, h1, h2]
    · simp [hsStep, handshakeLoop, h1, h2]
  · simp [hsStep, handshakeLoop, h1, le_of_not_lt h1]

/-- Witness for C2: one concrete engine per transition of the state
machine. -/
theorem handshake_loop_matches_state_machine_witness :
    (handshakeLoop engC2a 2 0 = handshakeLoop engC2a 1 1) ∧
    (handshakeLoop engC2b 1 0 = some (engC2b.handshakeResults 0, 1) ∧
      0 ≤ engC2b.handshakeResults 0) ∧
    (handshakeLoop engC2c 1 0 = some (engC2c.handshakeResults 0, 1) ∧
      engC2c.handshakeResults 0 < 0 ∧
      engC2c.errorIsFatal (engC2c.handshakeResults 0) = true) :=
  ⟨(handshake_loop_matches_state_machine engC2a 1 0).1 (by decide),
   (handshake_loop_matches_state_machine engC2b 0 0).2.1 (by decide),
   (handshake_loop_matches_state_machine engC2c 0 0).2.2 (by decide)⟩

/-- C3: `onion_https_close` is idempotent.  After one close the connection's
`user_data` is null, so a second close performs no `gnutls_bye`, no session
deinit, no request free and no free of the user data — only the socket close
— and leaves the connection state exactly as the first close left it. -/
theorem close_idempotent (b b2 : Int) (con : Conn) :
    (onion_https_close b2 (onion_https_close b con).2).1 =
      [CloseEvent.closeSocket] ∧
    (onion_https_close b2 (onion_https_close b con).2).2 =
      (onion_https_close b con).2 := by
  cases hcon : con.user_data <;> simp [onion_https_close, hcon]

/-- C4: closing a live channel (non-null `user_data` with a non-null
session) performs, in this order and for every `gnutls_bye` result `b`
(failure of the graceful shutdown is never escalated): graceful TLS
shutdown, session deinit, request free, user-data free, and only then the
socket close; the opaque per-connection state is cleared. -/
theorem close_live_order (b : Int) (con : Conn) (s : Nat)
    (h : con.user_data = some { session := some s }) :
    onion_https_close b con =
      ([CloseEvent.gnutlsBye b, CloseEvent.sessionDeinit,
        CloseEvent.requestFree, CloseEvent.freeUserData,
        CloseEvent.closeSocket],
       { user_data := none, socketOpen := false }) := by
  simp [onion_https_close, h]

/-- Witness for C4 at the live connection `conLive` with a failing graceful
shutdown (`gnutls_bye` result `-5`). -/
theorem close_live_order_witness :
    onion_https_close (-5) conLive =
      ([CloseEvent.gnutlsBye (-5), CloseEvent.sessionDeinit,
        CloseEvent.requestFree, CloseEvent.freeUserData,
        CloseEvent.closeSocket],
       { user_data := none, socketOpen := false }) :=
  close_live_order (-5) conLive 7 rfl

/-- C6: `onion_https_read` returns the engine result unchanged: a result of
0 (peer-initiated graceful shutdown) is returned with no error logged, while
a negative result is logged with the engine's error description and returned
negative; the two outcomes are always distinguishable since a negative
result is never 0. -/
theorem read_zero_vs_error (strerr : Int → String) (r : Int) (h : r < 0) :
    onion_https_read strerr 0 = (0, []) ∧
    onion_https_read strerr r =
      (r, [ReadEvent.logError ("Reading data has failed (" ++ strerr r ++ ")")]) ∧
    r ≠ 0 := by
  refine ⟨by simp [onion_https_read], by simp [onion_https_read, h], by omega⟩

/-- Witness for C6 at the engine result `-50`. -/
theorem read_zero_vs_error_witness :
    onion_https_read strerrC 0 = (0, []) ∧
    onion_https_read strerrC (-50) =
      ((-50 : Int),
       [ReadEvent.logError ("Reading data has failed (" ++ strerrC (-50) ++ ")")]) ∧
    (-50 : Int) ≠ 0 :=
  read_zero_vs_error strerrC (-50) (by decide)

/-- C7: at teardown of a listen point attached to a server,
`onion_https_free` calls `gnutls_global_deinit` exactly when the shared-use
flag `O_SSL_NO_DEINIT` is clear in the server flags, and it releases the
credential store, the DH parameters and the priority cache in either case;
no null dereference occurs when the server back-pointer is set. -/
theorem free_deinit_iff_flag (flags : Nat) :
    (onion_https_free (some flags)).nullDeref = false ∧
    (FreeEvent.globalDeinit ∈ (onion_https_free (some flags)).trace ↔
      Nat.land flags O_SSL_NO_DEINIT = 0) ∧
    FreeEvent.freeCredentials ∈ (onion_https_free (some flags)).trace ∧
    FreeEvent.dhParamsDeinit ∈ (onion_https_free (some flags)).trace ∧
    FreeEvent.priorityDeinit ∈ (onion_https_free (some flags)).trace := by
  by_cases h : Nat.land flags O_SSL_NO_DEINIT = 0 <;>
    simp [onion_https_free, h]

/-- C5 (failing evaluation): on a certificate-configuration failure —
unknown mode `0`, or a known mode whose load fails — `onion_https_new` logs
the errors and starts the cleanup (the credential store is freed), but the
cleanup dereferences the null `op->server` pointer inside
`onion_https_free`, so the constructor crashes instead of returning failure
and the `onion_https` struct is never freed. -/
theorem new_config_failure_cleanup_crashes :
    (onion_https_new 0 0 strerrC).2 = NewOutcome.nullDeref ∧
    NewEvent.logError ("Set unknown type of certificate: " ++ toString (0 : Nat)) ∈
      (onion_https_new 0 0 strerrC).1 ∧
    NewEvent.logError ("Error setting the certificate (" ++ strerrC (-1) ++ ")") ∈
      (onion_https_new 0 0 strerrC).1 ∧
    NewEvent.freeEv FreeEvent.freeCredentials ∈ (onion_https_new 0 0 strerrC).1 ∧
    NewEvent.freeEv FreeEvent.freeHttps ∉ (onion_https_new 0 0 strerrC).1 ∧
    (onion_https_new O_SSL_CERTIFICATE_KEY (-3) strerrC).2 = NewOutcome.nullDeref := by
  decide

/-- C8 (counterexample): at explicit concrete configurations — key-pair
mode, PKCS12 mode with the DER bit, and a failing CRL-mode load — the
key-exchange parameters are generated with the fixed legacy constant
1024 bits, not a modern configurable minimum. -/
theorem new_dh_legacy_constant_counterexample :
    dhBitsOf (onion_https_new O_SSL_CERTIFICATE_KEY 0 strerrC).1 = [1024] ∧
    dhBitsOf (onion_https_new (O_SSL_CERTIFICATE_PKCS12 + O_SSL_DER) 0 strerrC).1 =
      [1024] ∧
    dhBitsOf (onion_https_new O_SSL_CERTIFICATE_CRL (-3) strerrC).1 = [1024] := by
  decide

/-- C8 (amended): for every certificate type, engine result and error
description, `onion_https_new` generates the Diffie-Hellman parameters
exactly once, with the fixed legacy constant 1024 bits; the strength is not
configurable and does not depend on any construction argument. -/
theorem new_dh_params_fixed_1024 (ty : Nat) (certResult : Int)
    (strerr : Int → String) :
    dhBitsOf (onion_https_new ty certResult strerr).1 = [1024] := by
  simp only [onion_https_new]
  split <;> split <;>
    simp [dhBitsOf, dhBits, onion_listen_point_free, onion_https_free]

/-- C9 (counterexample): at the concrete engine `engC9`, whose first
handshake step fails fatally, `onion_https_accept_connection` returns
failure on a trace that contains the session initialization but no session
deinitialization: the session created for the failed attempt is not
released. -/
theorem accept_fatal_session_leak_counterexample :
    onion_https_accept_connection engC9 1 = some (trC9, false) ∧
    AcceptEvent.gnutlsInit ∈ trC9 ∧
    AcceptEvent.sessionDeinit ∉ trC9 := by
  decide

/-- C9 (amended): `onion_https_accept_connection` never deinitializes a TLS
session on any path; on the fatal-handshake path it frees the raw
connection and returns no connection, but the session initialized for the
failed attempt is leaked. -/
theorem accept_never_deinits_session (eng : TlsEngine) (fuel : Nat)
    (tr : List AcceptEvent) (b : Bool)
    (h : onion_https_accept_connection eng fuel = some (tr, b)) :
    AcceptEvent.sessionDeinit ∉ tr ∧
    (b = false →
      AcceptEvent.gnutlsInit ∈ tr ∧ AcceptEvent.connectionFree ∈ tr) := by
  unfold onion_https_accept_connection at h
  cases hl : handshakeLoop eng fuel 0 with
  | none => rw [hl] at h; exact absurd h (by simp)
  | some p =>
    obtain ⟨ret, n⟩ := p
    rw [hl] at h
    by_cases hr : ret < 0 <;>
      simp only [hr, if_pos, if_neg, not_false_eq_true, Option.some.injEq,
        Prod.mk.injEq, if_true, if_false] at h <;>
      obtain ⟨htr, hb⟩ := h <;> subst htr <;> subst hb <;>
      simp [handshakePre, handshakeTrace]

/-- Witness for the amended C9 at the concrete engine `engC9`. -/
theorem accept_never_deinits_session_witness :
    AcceptEvent.sessionDeinit ∉ trC9 ∧
    (false = false →
      AcceptEvent.gnutlsInit ∈ trC9 ∧ AcceptEvent.connectionFree ∈ trC9) :=
  accept_never_deinits_session engC9 1 trC9 false (by decide)

/-- C10 (failing evaluation): `onion_https_free` on a listen point whose
server back-pointer is unset dereferences the null pointer at the
shared-use-flag read — it neither completes nor reaches the global-deinit
decision — and therefore the cleanup path of a failed `onion_https_new`
(here: unknown certificate type `99`) crashes. -/
theorem free_null_server_deref :
    (onion_https_free none).nullDeref = true ∧
    FreeEvent.globalDeinit ∉ (onion_https_free none).trace ∧
    FreeEvent.closeFd ∉ (onion_https_free none).trace ∧
    (onion_https_new 99 0 strerrC).2 = NewOutcome.nullDeref := by
  decide
